import Mathlib

/-!
Verification of the epagneul event-ingestion core.

This file shallowly embeds the pipeline of `src/backend/epagneul/core/evtx.py`
(prefilter, record normalisation, timestamp parsing, dispatch, store folding)
and the handoff helpers of `src/backend/epagneul/core/neo4j.py` (`chunker`,
relationship export, tooltip construction), and proves or refutes the frozen
claims about them.

External collaborators are embedded as follows.  The binary container decoder
(`PyEvtxParser`) is out of scope, so ingestion is modelled over a list of raw
records.  The XML library (`lxml`) is external as well: a raw record carries
both its textual payload (consumed by the regex prefilter) and the structured
view the XML parser would produce (consumed by the normaliser).  Python's
`datetime.strptime` for the two literal formats used by the code is embedded
faithfully, including the regex-level behaviour of `_strptime` (field widths,
ordered alternation with backtracking, whitespace runs, and the validation
performed by the `datetime` constructor).

`epagneul/core/store.py`, the extractor modules under
`epagneul/core/evtx_events/` and the pydantic models under `epagneul/models/`
are code of this repository that is not under `src/`; the definitions for
them below are modelled from the spec and say so in their doc comments.
-/

namespace Epagneul

/-- Python whitespace test for the ASCII range, as used by the `re` module's
whitespace class and by `str.strip` on the inputs handled by the code. -/
def pyIsSpace (c : Char) : Bool :=
  c == ' ' || c == '\t' || c == '\n' || c == '\x0b' || c == '\x0c' || c == '\r'

/-- The character class of `re.sub("[^0-9-:\s]", " ", _)` in `convert_logtime`:
decimal digits, the hyphen, the colon and whitespace. -/
def pyIsDateChar (c : Char) : Bool :=
  c.isDigit || c == '-' || c == ':' || pyIsSpace c

/-- Embedding of `re.sub("[^0-9-:\s]", " ", t)`: every character outside the class becomes
a single space. -/
def pySubDate (l : List Char) : List Char :=
  l.map (fun c => if pyIsDateChar c then c else ' ')

/-- Embedding of `str.strip()`: drop leading and trailing whitespace. -/
def pyStrip (l : List Char) : List Char :=
  ((l.dropWhile pyIsSpace).reverse.dropWhile pyIsSpace).reverse

/-- Embedding of `s.split(".")[0]`: the prefix of the string before its first dot. -/
def pyHeadDot (l : List Char) : List Char :=
  l.takeWhile (fun c => c != '.')

/-- The preprocessed timestamp string of `convert_logtime`:
`re.sub("[^0-9-:\s]", " ", logtime.split(".")[0]).strip()`. -/
def tzless (logtime : String) : List Char :=
  pyStrip (pySubDate (pyHeadDot logtime.toList))

/-! ### Calendar arithmetic (embedding of Python `datetime` + `timedelta`) -/

/-- Gregorian leap-year rule, as validated by the `datetime` constructor. -/
def isLeap (y : Int) : Bool :=
  y % 4 == 0 && (y % 100 != 0 || y % 400 == 0)

/-- Days in a month of the proleptic Gregorian calendar. -/
def daysInMonth (y m : Int) : Int :=
  if m = 2 then (if isLeap y then 29 else 28)
  else if m = 4 ∨ m = 6 ∨ m = 9 ∨ m = 11 then 30
  else 31

/-- Day count since 1970-01-01 of a Gregorian civil date. -/
def daysFromCivil (y m d : Int) : Int :=
  let yy := if m ≤ 2 then y - 1 else y
  let era := Int.fdiv yy 400
  let yoe := yy - era * 400
  let doy := Int.fdiv (153 * (m + (if m > 2 then -3 else 9)) + 2) 5 + d - 1
  let doe := yoe * 365 + Int.fdiv yoe 4 - Int.fdiv yoe 100 + doy
  era * 146097 + doe - 719468

/-- Gregorian civil date of a day count since 1970-01-01. -/
def civilFromDays (z0 : Int) : Int × Int × Int :=
  let z := z0 + 719468
  let era := Int.fdiv z 146097
  let doe := z - era * 146097
  let yoe := Int.fdiv (doe - Int.fdiv doe 1460 + Int.fdiv doe 36524 - Int.fdiv doe 146096) 365
  let y := yoe + era * 400
  let doy := doe - (365 * yoe + Int.fdiv yoe 4 - Int.fdiv yoe 100)
  let mp := Int.fdiv (5 * doy + 2) 153
  let d := doy - Int.fdiv (153 * mp + 2) 5 + 1
  let m := mp + (if mp < 10 then 3 else -9)
  (if m ≤ 2 then y + 1 else y, m, d)

/-- A naive Python `datetime` value: a Gregorian date, a time of day and a
microsecond component in `[0, 1000000)`. -/
structure PyDateTime where
  year : Int
  month : Int
  day : Int
  hour : Int
  minute : Int
  second : Int
  microsecond : Nat
deriving DecidableEq, Repr

/-- Whole seconds since the Unix epoch of a naive `datetime`, reading the
value as UTC (the host-local offset consulted by `datetime.timestamp` is
environment configuration, modelled here as zero). -/
def toEpochSeconds (t : PyDateTime) : Int :=
  daysFromCivil t.year t.month t.day * 86400 + t.hour * 3600 + t.minute * 60 + t.second

/-- Microseconds since the Unix epoch; the total order used to compare
`datetime` values. -/
def toEpochMicro (t : PyDateTime) : Int :=
  toEpochSeconds t * 1000000 + t.microsecond

/-- Embedding of `datetime + timedelta(seconds=secs)`: shift by whole seconds with full
date rollover; the microsecond component is unchanged. -/
def addSeconds (t : PyDateTime) (secs : Int) : PyDateTime :=
  let total := toEpochSeconds t + secs
  let days := Int.fdiv total 86400
  let rem := total - days * 86400
  let c := civilFromDays days
  let h := Int.fdiv rem 3600
  let mrem := rem - h * 3600
  ⟨c.1, c.2.1, c.2.2, h, Int.fdiv mrem 60, mrem % 60, t.microsecond⟩

/-- The range and day-of-month validation performed by the `datetime`
constructor inside `strptime`; seconds 60 and 61 pass the regex but are
rejected here.  A successful parse always has microsecond 0 because neither
format contains a fractional-seconds directive. -/
def mkPyDateTime (y mo d h mi s : Nat) : Option PyDateTime :=
  if 1 ≤ y ∧ y ≤ 9999 ∧ 1 ≤ mo ∧ mo ≤ 12 ∧ 1 ≤ d ∧
     (d : Int) ≤ daysInMonth (y : Int) (mo : Int) ∧ h ≤ 23 ∧ mi ≤ 59 ∧ s ≤ 59
  then some ⟨(y : Int), (mo : Int), (d : Int), (h : Int), (mi : Int), (s : Int), 0⟩
  else none

/-! ### Embedding of `datetime.strptime` for the two formats of the code -/

/-- Value of one ASCII decimal digit. -/
def parseDigit (c : Char) : Option Nat :=
  if c.isDigit then some (c.toNat - 48) else none

/-- The `%Y` directive: exactly four digits. -/
def parse4Digits : List Char → Option (Nat × List Char)
  | a :: b :: c :: d :: rest => do
    let x ← parseDigit a
    let y ← parseDigit b
    let z ← parseDigit c
    let w ← parseDigit d
    pure (x * 1000 + y * 100 + z * 10 + w, rest)
  | _ => none

/-- A two-digit-first numeric directive (`%m`, `%d`, `%H`, `%M`, `%S`): the
regex alternation tries the two-digit branch first and backtracks to the
one-digit branch when the continuation fails, exactly as `re` does. -/
def read2or1 (twoOk oneOk : Nat → Bool) (k : Nat → List Char → Option α) :
    List Char → Option α
  | c1 :: c2 :: rest =>
    (match parseDigit c1, parseDigit c2 with
     | some d1, some d2 =>
       if twoOk (d1 * 10 + d2) then k (d1 * 10 + d2) rest else none
     | _, _ => none) <|>
    (match parseDigit c1 with
     | some d1 => if oneOk d1 then k d1 (c2 :: rest) else none
     | none => none)
  | [c1] =>
    (match parseDigit c1 with
     | some d1 => if oneOk d1 then k d1 [] else none
     | none => none)
  | [] => none

/-- Whitespace in a `strptime` format string matches a nonempty run of
whitespace characters. -/
def sepWs (k : List Char → Option α) : List Char → Option α
  | c :: rest => if pyIsSpace c then k (rest.dropWhile pyIsSpace) else none
  | [] => none

/-- The literal `T` of the fallback format; `_strptime` compiles the format
case-insensitively. -/
def sepT (k : List Char → Option α) : List Char → Option α
  | c :: rest => if c = 'T' ∨ c = 't' then k rest else none
  | [] => none

/-- The six numeric fields of `"%Y-%m-%d %H:%M:%S"` (resp. the `T`-separated
variant when `useT` is true), matched against the full input: year, month,
day, hour, minute, second. -/
def timeFields (useT : Bool) (cs : List Char) : Option (Nat × Nat × Nat × Nat × Nat × Nat) :=
  match parse4Digits cs with
  | none => none
  | some (y, cs) =>
    match cs with
    | '-' :: cs =>
      read2or1 (fun n => 1 ≤ n && n ≤ 12) (fun n => 1 ≤ n) (fun mo cs =>
        match cs with
        | '-' :: cs =>
          read2or1 (fun n => 1 ≤ n && n ≤ 31) (fun n => 1 ≤ n) (fun dy cs =>
            (if useT then sepT else sepWs) (fun cs =>
              read2or1 (fun n => n ≤ 23) (fun _ => true) (fun h cs =>
                match cs with
                | ':' :: cs =>
                  read2or1 (fun n => n ≤ 59) (fun _ => true) (fun mi cs =>
                    match cs with
                    | ':' :: cs =>
                      read2or1 (fun n => n ≤ 61) (fun _ => true) (fun s cs =>
                        match cs with
                        | [] => some (y, mo, dy, h, mi, s)
                        | _ => none) cs
                    | _ => none) cs
                | _ => none) cs) cs) cs
        | _ => none) cs
    | _ => none

/-- Embedding of `datetime.strptime(s, "%Y-%m-%d %H:%M:%S")`. -/
def strptimeSpace (cs : List Char) : Option PyDateTime :=
  (timeFields false cs).bind fun f => mkPyDateTime f.1 f.2.1 f.2.2.1 f.2.2.2.1 f.2.2.2.2.1 f.2.2.2.2.2

/-- Embedding of `datetime.strptime(s, "%Y-%m-%dT%H:%M:%S")`. -/
def strptimeT (cs : List Char) : Option PyDateTime :=
  (timeFields true cs).bind fun f => mkPyDateTime f.1 f.2.1 f.2.2.1 f.2.2.2.1 f.2.2.2.2.1 f.2.2.2.2.2

/-- Adding `timedelta(hours=tzone)` inside the try-block; a result outside the
year range supported by `datetime` raises and is treated as a failure. -/
def addHoursChecked (t : PyDateTime) (tzone : Int) : Option PyDateTime :=
  let r := addSeconds t (tzone * 3600)
  if 1 ≤ r.year ∧ r.year ≤ 9999 then some r else none

/-- Embedding of `convert_logtime(logtime, tzone=1)` of `evtx.py`: preprocess the string,
try the space-separated format, fall back to the `T`-separated format on any
failure, and add the timezone offset; `none` is the unhandled exception. -/
def convert_logtime (logtime : String) (tzone : Int := 1) : Option PyDateTime :=
  match (strptimeSpace (tzless logtime)).bind (fun d => addHoursChecked d tzone) with
  | some r => some r
  | none => (strptimeT (tzless logtime)).bind (fun d => addHoursChecked d tzone)

/-! ### Data model of the store, entities and relationships

`epagneul/core/store.py` and the pydantic models are not under `src/`; the
structures below are modelled from the spec (sections 3, 4.5 and 6). -/

/-- Entity kind: User, Machine or Group. -/
inductive Cat where
  | user
  | machine
  | group
deriving DecidableEq, Repr

/-- Render an entity kind for relationship typing fields. -/
def catStr : Cat → String
  | .user => "user"
  | .machine => "machine"
  | .group => "group"

/-- Modelled from the spec: an entity row of the store (`epagneul/models`
and `epagneul/core/store.py` are not under `src/`): a stable id, its kind, a
display label, and the machine IP accumulator with set semantics, kept as an
insertion-ordered duplicate-free list. -/
structure Entity where
  id : String
  category : Cat
  label : String
  ips : List String
deriving DecidableEq, Repr

/-- Modelled from the spec: an aggregate relationship row keyed by
`(source, target, event_type)` with a count, encounter-ordered timestamps and
descriptive attributes captured at first observation. -/
structure Rel where
  source : String
  target : String
  source_type : String
  target_type : String
  event_type : String
  count : Nat
  timestamps : List PyDateTime
  attrs : List (String × String)
deriving DecidableEq, Repr

/-- A structured Event as produced by `get_event_from_xml`: numeric id,
timezone-adjusted timestamp, and the ordered `EventData` field values. -/
structure Event where
  event_id : Int
  timestamp : PyDateTime
  data : List String
deriving DecidableEq, Repr

/-- Modelled from the spec: the aggregation store of
`epagneul/core/store.py` (not under `src/`): three entity tables, the
relationship table, and the running global (min, max) observation window. -/
structure Datastore where
  start_time : Option PyDateTime
  end_time : Option PyDateTime
  users : List Entity
  machines : List Entity
  groups : List Entity
  relationships : List Rel
deriving DecidableEq, Repr

/-- The store produced by `Datastore()` before any record is folded in. -/
def emptyStore : Datastore :=
  ⟨none, none, [], [], [], []⟩

/-- Order on datetimes, by instant. -/
def dtLe (a b : PyDateTime) : Bool :=
  decide (toEpochMicro a ≤ toEpochMicro b)

/-- Earlier of two datetimes. -/
def dtMin (a b : PyDateTime) : PyDateTime :=
  if dtLe a b then a else b

/-- Later of two datetimes. -/
def dtMax (a b : PyDateTime) : PyDateTime :=
  if dtLe a b then b else a

/-- Modelled from the spec: `store.add_timestamp` updates the running
(min, max) pair of the global observation window and touches nothing else. -/
def Datastore.add_timestamp (s : Datastore) (t : PyDateTime) : Datastore :=
  { s with
    start_time := some (match s.start_time with | none => t | some a => dtMin a t),
    end_time := some (match s.end_time with | none => t | some a => dtMax a t) }

/-- Union with set semantics on the IP accumulator, keeping insertion order. -/
def ipUnion (l r : List String) : List String :=
  l ++ r.filter (fun x => !(l.contains x))

/-- Modelled from the spec: idempotent merge of an entity into its table —
re-observing an id only merges accumulators, never creates a duplicate. -/
def upsertEntity (tbl : List Entity) (e : Entity) : List Entity :=
  if tbl.any (fun x => x.id == e.id) then
    tbl.map (fun x => if x.id == e.id then { x with ips := ipUnion x.ips e.ips } else x)
  else tbl ++ [e]

/-- Route an entity to the table of its kind. -/
def addEntity (s : Datastore) (e : Entity) : Datastore :=
  match e.category with
  | .user => { s with users := upsertEntity s.users e }
  | .machine => { s with machines := upsertEntity s.machines e }
  | .group => { s with groups := upsertEntity s.groups e }

/-- Modelled from the spec: the relationship state machine — first
observation creates `count = 1, timestamps = [t]`; later observations with
the same key increment the count and append the timestamp in encounter
order, keeping the descriptive attributes of the first observation. -/
def upsertRel (rels : List Rel) (src tgt : String) (sc tc : Cat) (etype : String)
    (ts : PyDateTime) : List Rel :=
  if rels.any (fun r => r.source == src && r.target == tgt && r.event_type == etype) then
    rels.map (fun r =>
      if r.source == src && r.target == tgt && r.event_type == etype then
        { r with count := r.count + 1, timestamps := r.timestamps ++ [ts] }
      else r)
  else
    rels ++ [{ source := src, target := tgt, source_type := catStr sc,
               target_type := catStr tc, event_type := etype, count := 1,
               timestamps := [ts], attrs := [] }]

/-- An extractor folds one Event into the store. -/
abbrev Extractor := Datastore → Event → Datastore

/-- Modelled from the spec: the uniform extractor contract — read the actor
and target principal names from fields of `Event.data` (an absent or empty
field becomes a sentinel rather than a failure), upsert both entities, and
report exactly one relationship occurrence with its timestamp. -/
def reportPair (sc tc : Cat) (etype : String) : Extractor := fun s e =>
  let src := (e.data[0]?).getD "-"
  let tgt := (e.data[1]?).getD "-"
  let s1 := addEntity (addEntity s ⟨src, sc, src, []⟩) ⟨tgt, tc, tgt, []⟩
  { s1 with relationships := upsertRel s1.relationships src tgt sc tc etype e.timestamp }

/-- Modelled from the spec: extractor of event 3 (`event_3.py`, not under
`src/`), a machine-to-machine network connection. -/
def parse_3 : Extractor := reportPair .machine .machine "NETWORK_CONNECTION"

/-- Modelled from the spec: extractor of event 4648 (`event_4648.py`, not
under `src/`), an explicit-credential logon. -/
def parse_4648 : Extractor := reportPair .user .machine "EXPLICIT_CREDENTIAL_LOGON"

/-- Modelled from the spec: extractor of event 4624
(`basic_logon_events.py`, not under `src/`), a successful logon. -/
def parse_logon_successfull : Extractor := reportPair .user .machine "LOGON_SUCCESS"

/-- Modelled from the spec: extractor of event 4625, a failed logon. -/
def parse_logon_failed : Extractor := reportPair .user .machine "LOGON_FAILURE"

/-- Modelled from the spec: extractor of event 4672 (`event_4672.py`, not
under `src/`), a special-privilege assignment. -/
def parse_4672 : Extractor := reportPair .user .machine "SPECIAL_PRIVILEGE_ASSIGNED"

/-- Modelled from the spec: extractor of event 4768 (`event_4768.py`, not
under `src/`), a Kerberos TGT request. -/
def parse_4768 : Extractor := reportPair .user .machine "TGT_REQUEST"

/-- Modelled from the spec: extractor of event 4769, a Kerberos service
ticket request. -/
def parse_tgs : Extractor := reportPair .user .machine "TGS_REQUEST"

/-- Modelled from the spec: extractor of event 4771, a Kerberos
pre-authentication failure. -/
def parse_tgt_failed : Extractor := reportPair .user .machine "TGT_FAILURE"

/-- Modelled from the spec: extractor of event 4776, an NTLM validation. -/
def parse_ntlm_request : Extractor := reportPair .user .machine "NTLM_VALIDATION"

/-- Modelled from the spec: the single shared extractor of the three
group-membership-add events 4728, 4732 and 4756 (`group_events.py`, not
under `src/`). -/
def parse_add_group : Extractor := reportPair .user .group "GROUP_MEMBERSHIP_ADD"

/-- The `supported_events` dispatch dict of `evtx.py`, in source order. -/
def supported_events : List (Int × Extractor) :=
  [(3, parse_3),
   (4648, parse_4648),
   (4624, parse_logon_successfull),
   (4625, parse_logon_failed),
   (4672, parse_4672),
   (4768, parse_4768),
   (4769, parse_tgs),
   (4771, parse_tgt_failed),
   (4776, parse_ntlm_request),
   (4728, parse_add_group),
   (4732, parse_add_group),
   (4756, parse_add_group)]

/-- Dict lookup: `supported_events[event_id]`, `none` when the membership
test `event.event_id in supported_events` fails. -/
def lookupEvent (n : Int) : Option Extractor :=
  supported_events.lookup n

/-- The key list `supported_events.keys()`, in dict insertion order. -/
def supported_event_ids : List Int :=
  supported_events.map Prod.fst

/-! ### The precompiled prefilter `USEFULL_EVENTS_STR` -/

/-- The literal alternatives of the pattern
`<EventID>(3|4648|...|4756)<`: one candidate substring per supported id. -/
def prefilterAlternatives : List (List Char) :=
  supported_events.map (fun kv => ("<EventID>" ++ toString kv.1 ++ "<").toList)

/-- Does some alternative of the alternation match at this position? -/
def matchesAt (cs : List Char) : Bool :=
  prefilterAlternatives.any (fun pat => pat.isPrefixOf cs)

/-- Embedding of `re.search`: scan every position left to right for a match. -/
def searchFrom : List Char → Bool
  | [] => matchesAt []
  | c :: rest => matchesAt (c :: rest) || searchFrom rest

/-- Embedding of `re.search(USEFULL_EVENTS_STR, data)` of `parse_evtx`. -/
def prefilterMatches (data : String) : Bool :=
  searchFrom data.toList

/-! ### The record normaliser and the ingestion loop -/

/-- The structured view the external XML parser produces of a record:
the text of the first `/Event/System/EventID` node, the first
`/Event/System/TimeCreated` node with its optional `SystemTime` attribute,
and the `/Event/EventData/Data` field values.  `lxml` is an external
collaborator, so a record carries this view alongside its raw text. -/
structure XmlEvent where
  eventID : Option String
  timeCreated : Option (Option String)
  eventData : List String
deriving DecidableEq, Repr

/-- One raw record from the container decoder: the textual payload
`r["data"]` scanned by the prefilter, and the result of XML parsing —
`none` when the text is not well-formed XML. -/
structure RawRecord where
  data : String
  parsed : Option XmlEvent
deriving DecidableEq, Repr

/-- The Python exception that escapes the ingestion loop. -/
inductive Err where
  | xmlSyntaxError
  | indexError
  | attributeError
  | valueError
  | unparseableTimestamp
deriving DecidableEq, Repr

/-- Embedding of `int(text)`: strip whitespace, allow one sign, require digits. -/
def pyInt (s : String) : Option Int :=
  match pyStrip s.toList with
  | '-' :: ds =>
    if ds ≠ [] ∧ ds.all Char.isDigit then
      some (-(ds.foldl (fun a c => a * 10 + ((c.toNat : Int) - 48)) 0))
    else none
  | '+' :: ds =>
    if ds ≠ [] ∧ ds.all Char.isDigit then
      some (ds.foldl (fun a c => a * 10 + ((c.toNat : Int) - 48)) 0)
    else none
  | ds =>
    if ds ≠ [] ∧ ds.all Char.isDigit then
      some (ds.foldl (fun a c => a * 10 + ((c.toNat : Int) - 48)) 0)
    else none

/-- Embedding of `get_event_from_xml` of `evtx.py`: parse the record, read the event id
with `int(...)`, the creation time attribute through `convert_logtime` with
the default timezone offset, and the `EventData` fields.  Every failure is
an uncaught Python exception, returned as `Except.error`: ill-formed XML, a
missing `EventID` or `TimeCreated` node (`xpath(...)[0]` raises IndexError),
a missing `SystemTime` attribute (`None.split` raises AttributeError), a
non-numeric id, or a timestamp matching neither format.  A missing
`EventData` section is not an error: the xpath result is just empty. -/
def get_event_from_xml (r : RawRecord) : Except Err Event :=
  match r.parsed with
  | none => .error .xmlSyntaxError
  | some x =>
    match x.eventID with
    | none => .error .indexError
    | some idText =>
      match pyInt idText with
      | none => .error .valueError
      | some eid =>
        match x.timeCreated with
        | none => .error .indexError
        | some none => .error .attributeError
        | some (some st) =>
          match convert_logtime st 1 with
          | none => .error .unparseableTimestamp
          | some ts => .ok { event_id := eid, timestamp := ts, data := x.eventData }

/-- The record loop of `parse_evtx`, from a given store: skip records the
prefilter rejects; otherwise normalise (an exception aborts the whole run),
record the timestamp in the global window, and dispatch when the id is a key
of `supported_events`. -/
def parse_evtx_from (store : Datastore) : List RawRecord → Except Err Datastore
  | [] => .ok store
  | r :: rest =>
    if prefilterMatches r.data then
      match get_event_from_xml r with
      | .error e => .error e
      | .ok event =>
        match lookupEvent event.event_id with
        | some f => parse_evtx_from (f (store.add_timestamp event.timestamp) event) rest
        | none => parse_evtx_from (store.add_timestamp event.timestamp) rest
    else parse_evtx_from store rest

/-- Embedding of `parse_evtx` of `evtx.py` over the decoded record sequence: fold every
record into a fresh store. -/
def parse_evtx (records : List RawRecord) : Except Err Datastore :=
  parse_evtx_from emptyStore records

/-! ### Handoff helpers of `neo4j.py` -/

/-- Embedding of `chunker(seq, size)` of `neo4j.py`:
`(seq[pos : pos + size] for pos in range(0, len(seq), size))`. -/
def chunker (seq : List α) (size : Nat) : List (List α) :=
  (List.range' 0 ((seq.length + size - 1) / size) size).map
    (fun pos => (seq.drop pos).take size)

/-- Embedding of `int(round(datetime.timestamp(ts)))`: epoch seconds of the instant with
the microsecond part rounded half-to-even, as Python `round` does. -/
def pyRoundTimestamp (t : PyDateTime) : Int :=
  let s := toEpochSeconds t
  if 2 * t.microsecond < 1000000 then s
  else if 2 * t.microsecond > 1000000 then s + 1
  else if s % 2 = 0 then s else s + 1

/-- A loosely typed pydantic field value, as rendered into the tooltip by
`f"{k}: {v}"`. -/
inductive PyVal where
  | s (v : String)
  | i (v : Nat)
  | dts (v : List PyDateTime)
deriving DecidableEq, Repr

/-- Python `str(v)` of a field value. -/
def pyFormat : PyVal → String
  | .s v => v
  | .i v => toString v
  | .dts _ => "<datetime list>"

/-- Modelled from the spec: `e.dict()` of a store relationship — the
exported key/value pairs in field-declaration order, the descriptive
attributes last (`epagneul/models/relationships.py` is not under `src/`). -/
def relDict (e : Rel) : List (String × PyVal) :=
  ("source", .s e.source) :: ("target", .s e.target) ::
  ("source_type", .s e.source_type) :: ("target_type", .s e.target_type) ::
  ("event_type", .s e.event_type) :: ("count", .i e.count) ::
  ("timestamps", .dts e.timestamps) :: e.attrs.map (fun kv => (kv.1, PyVal.s kv.2))

/-- The exclusion set of the `tip` construction in `add_evtx_store`. -/
def tipExcludeKeys : List String :=
  ["source", "target", "timestamps", "count", "source_type", "target_type"]

/-- The `tip` string built in `add_evtx_store`:
`"<br>".join(f"{k}: {v}" for k, v in e.dict(exclude={...}).items())`. -/
def tipOf (e : Rel) : String :=
  String.intercalate "<br>"
    (((relDict e).filter (fun kv => !(tipExcludeKeys.contains kv.1))).map
      (fun kv => kv.1 ++ ": " ++ pyFormat kv.2))

/-- A relationship row as handed to the graph store by `add_evtx_store`:
timestamps converted to epoch-second integers, plus the `tip` text. -/
structure ExportedRel where
  source : String
  target : String
  event_type : String
  count : Nat
  timestamps : List Int
  tip : String
  attrs : List (String × String)
deriving DecidableEq, Repr

/-- The relationship export of `add_evtx_store`: keep identity fields, map
each timestamp through `int(round(datetime.timestamp(ts)))` in order, and
attach the tooltip text. -/
def exportRel (e : Rel) : ExportedRel :=
  { source := e.source
    target := e.target
    event_type := e.event_type
    count := e.count
    timestamps := e.timestamps.map pyRoundTimestamp
    tip := tipOf e
    attrs := e.attrs }

/-- A machine row as handed to the graph store: `machine_dict["ips"] =
list(m.ips)` exports the accumulated IP set as a list. -/
structure ExportedMachine where
  id : String
  category : Cat
  label : String
  ips : List String
deriving DecidableEq, Repr

/-- The machine export of `add_evtx_store`. -/
def exportMachine (m : Entity) : ExportedMachine :=
  { id := m.id, category := m.category, label := m.label, ips := m.ips }

/-- The tooltip shown by the display layer: `get_graph` appends
`f"<br>Count: {rel['count']}"` to the stored `tip`. -/
def displayTip (r : ExportedRel) : String :=
  r.tip ++ "<br>Count: " ++ toString r.count

/-- The descriptive attributes of a relationship in the spec's words: all
exported fields except `source`, `target`, `timestamps`, `count`,
`source_type` and `target_type`.  Stated independently of `tipOf` for
comparison with it. -/
def specDescriptivePairs (e : Rel) : List (String × PyVal) :=
  (relDict e).filter (fun kv =>
    decide (¬ (kv.1 = "source" ∨ kv.1 = "target" ∨ kv.1 = "timestamps" ∨
      kv.1 = "count" ∨ kv.1 = "source_type" ∨ kv.1 = "target_type")))

/-! ### Concrete records used to settle the claims -/

/-- The instant 2021-12-09 11:00:00, i.e. the Dec 9 example timestamp after
the default +1 hour offset. -/
def dtDec9 : PyDateTime := ⟨2021, 12, 9, 11, 0, 0, 0⟩

/-- The instant 2021-12-10 11:00:00. -/
def dtDec10 : PyDateTime := ⟨2021, 12, 10, 11, 0, 0, 0⟩

/-- A record whose text passes the prefilter but is not well-formed XML. -/
def c1BadRecord : RawRecord := ⟨"<Event><EventID>4624<", none⟩

/-- A well-formed record of the supported event 4624. -/
def c1GoodRecord : RawRecord :=
  ⟨"<Event><System><EventID>4624</EventID></System></Event>",
   some ⟨some "4624", some (some "2021-12-09 10:00:00.123456"), ["alice", "SRV01"]⟩⟩

/-- A well-formed record of the supported event 4624, for the window claim. -/
def c2SupRecord : RawRecord :=
  ⟨"<Event><System><EventID>4624</EventID></System></Event>",
   some ⟨some "4624", some (some "2021-12-09 10:00:00.123456"), ["alice", "SRV01"]⟩⟩

/-- The Event that `get_event_from_xml` yields for `c2SupRecord`. -/
def c2SupEvent : Event := ⟨4624, dtDec9, ["alice", "SRV01"]⟩

/-- A well-formed record with the unsupported id 9999 whose text matches no
prefilter alternative. -/
def c2UnsupRecord : RawRecord :=
  ⟨"<Event><System><EventID>9999</EventID></System></Event>",
   some ⟨some "9999", some (some "2021-12-10 10:00:00.123456"), ["x"]⟩⟩

/-- The Event that `get_event_from_xml` yields for `c2UnsupRecord`. -/
def c2UnsupEvent : Event := ⟨9999, dtDec10, ["x"]⟩

/-- A well-formed record with the unsupported id 9999 whose payload happens
to contain the substring of supported id 3 — a prefilter false positive. -/
def c2FalsePositiveRecord : RawRecord :=
  ⟨"<Event><System><EventID>9999</EventID></System><EventData><Data>see <EventID>3< here</Data></EventData></Event>",
   some ⟨some "9999", some (some "2021-12-10 10:00:00.123456"), ["x"]⟩⟩

/-- A record passing the prefilter (false positive on id 3) whose parsed id
12345 is not a dispatch key. -/
def c5Record : RawRecord :=
  ⟨"zz<EventID>3<zz", some ⟨some "12345", some (some "2021-12-09 08:30:00.5"), []⟩⟩

/-- The Event that `get_event_from_xml` yields for `c5Record`. -/
def c5Event : Event := ⟨12345, ⟨2021, 12, 9, 9, 30, 0, 0⟩, []⟩

/-- A relationship with two descriptive attributes, for the tooltip claim. -/
def c8Rel : Rel :=
  ⟨"alice", "SRV01", "user", "machine", "LOGON_SUCCESS", 3,
   [⟨2021, 12, 9, 11, 0, 0, 0⟩], [("logon_type", "3"), ("auth_package", "NTLM")]⟩

/-- A machine entity with two accumulated IPs, for the export claim. -/
def c9Machine : Entity := ⟨"SRV01", .machine, "SRV01", ["10.0.0.1", "10.0.0.2"]⟩

/-- A relationship with two out-of-order timestamps, for the export claim. -/
def c9Rel : Rel :=
  ⟨"alice", "SRV01", "user", "machine", "LOGON_SUCCESS", 2,
   [⟨2021, 12, 10, 11, 0, 0, 0⟩, ⟨2021, 12, 9, 11, 0, 0, 0⟩], [("logon_type", "3")]⟩

/-- An instant on an exact half second, exercising the rounding bound. -/
def c9Half : PyDateTime := ⟨2021, 12, 9, 10, 0, 0, 500000⟩

/-! ### Helper lemmas -/

/-- A list is a Boolean prefix of itself followed by anything. -/
theorem isPrefixOf_self_append (p r : List Char) : p.isPrefixOf (p ++ r) = true := by
  induction p with
  | nil => simp
  | cons a as ih => simp [List.isPrefixOf, ih]

/-- The alternation matches at a position where one alternative starts. -/
theorem matchesAt_of_mem {pat : List Char} (hmem : pat ∈ prefilterAlternatives)
    (r : List Char) : matchesAt (pat ++ r) = true := by
  rw [matchesAt, List.any_eq_true]
  exact ⟨pat, hmem, isPrefixOf_self_append pat r⟩

/-- Left-to-right scanning finds a match at any position. -/
theorem searchFrom_of_matchesAt :
    ∀ (l rest : List Char), matchesAt rest = true → searchFrom (l ++ rest) = true := by
  intro l
  induction l with
  | nil =>
    intro rest h
    cases rest with
    | nil => simpa [searchFrom] using h
    | cons c cs => simp [searchFrom, h]
  | cons c l ih =>
    intro rest h
    simp [searchFrom, ih rest h]

/-- Stripping only removes characters, so membership transfers back. -/
theorem mem_of_mem_pyStrip {c : Char} {l : List Char} (h : c ∈ pyStrip l) : c ∈ l := by
  rw [pyStrip, List.mem_reverse] at h
  have h1 := (List.dropWhile_sublist pyIsSpace).subset h
  rw [List.mem_reverse] at h1
  exact (List.dropWhile_sublist pyIsSpace).subset h1

/-- A successful parse in the space-separated format has microsecond 0. -/
theorem strptimeSpace_micro {cs : List Char} {d : PyDateTime}
    (h : strptimeSpace cs = some d) : d.microsecond = 0 := by
  rw [strptimeSpace, Option.bind_eq_some] at h
  obtain ⟨f6, -, h2⟩ := h
  rw [mkPyDateTime] at h2
  split at h2
  · cases h2; rfl
  · exact Option.noConfusion h2

/-- A successful parse in the `T`-separated format has microsecond 0. -/
theorem strptimeT_micro {cs : List Char} {d : PyDateTime}
    (h : strptimeT cs = some d) : d.microsecond = 0 := by
  rw [strptimeT, Option.bind_eq_some] at h
  obtain ⟨f6, -, h2⟩ := h
  rw [mkPyDateTime] at h2
  split at h2
  · cases h2; rfl
  · exact Option.noConfusion h2

/-- The checked timedelta addition keeps the microsecond component. -/
theorem addHoursChecked_micro {t r : PyDateTime} {tz : Int}
    (h : addHoursChecked t tz = some r) : r.microsecond = t.microsecond := by
  rw [addHoursChecked] at h
  split at h
  · cases h; rfl
  · exact Option.noConfusion h

/-- Any instant returned by `convert_logtime` has whole-second precision. -/
theorem convert_logtime_micro {s : String} {tz : Int} {d : PyDateTime}
    (h : convert_logtime s tz = some d) : d.microsecond = 0 := by
  rw [convert_logtime] at h
  cases hA : (strptimeSpace (tzless s)).bind (fun x => addHoursChecked x tz) with
  | some r =>
    rw [hA] at h
    cases h
    obtain ⟨d0, hd0, hadd⟩ := Option.bind_eq_some.mp hA
    rw [addHoursChecked_micro hadd, strptimeSpace_micro hd0]
  | none =>
    rw [hA] at h
    obtain ⟨d0, hd0, hadd⟩ := Option.bind_eq_some.mp h
    rw [addHoursChecked_micro hadd, strptimeT_micro hd0]

/-- Preprocessing is invariant under first truncating at the first dot. -/
theorem tzless_headDot (s : String) :
    tzless (String.mk (s.toList.takeWhile (fun c => c != '.'))) = tzless s := by
  simp only [tzless, pyHeadDot, String.toList]
  rw [List.takeWhile_idem]

/-- Helper fact: `addEntity` never touches the global window. -/
theorem addEntity_window (s : Datastore) (e : Entity) :
    (addEntity s e).start_time = s.start_time ∧ (addEntity s e).end_time = s.end_time := by
  cases h : e.category <;> simp [addEntity, h]

/-- The uniform extractor shape never touches the global window. -/
theorem reportPair_window (sc tc : Cat) (et : String) (s : Datastore) (e : Event) :
    (reportPair sc tc et s e).start_time = s.start_time ∧
      (reportPair sc tc et s e).end_time = s.end_time := by
  simp [reportPair, (addEntity_window _ _).1, (addEntity_window _ _).2]

/-- A successful association-list lookup comes from some list entry. -/
theorem lookup_mem_pair :
    ∀ {l : List (Int × Extractor)} {n : Int} {f : Extractor},
      l.lookup n = some f → ∃ k, (k, f) ∈ l := by
  intro l
  induction l with
  | nil => intro n f h; exact Option.noConfusion h
  | cons kv l ih =>
    intro n f h
    obtain ⟨k, b⟩ := kv
    rw [List.lookup] at h
    split at h
    · cases h; exact ⟨k, List.mem_cons_self _ _⟩
    · obtain ⟨k', hk'⟩ := ih h
      exact ⟨k', List.mem_cons_of_mem _ hk'⟩

/-- Every entry of the dispatch table preserves the global window. -/
theorem table_window (p : Int × Extractor) (hp : p ∈ supported_events)
    (s : Datastore) (e : Event) :
    (p.2 s e).start_time = s.start_time ∧ (p.2 s e).end_time = s.end_time := by
  fin_cases hp <;> exact reportPair_window _ _ _ s e

/-- Every dispatched extractor preserves the global window. -/
theorem extractor_window {n : Int} {f : Extractor} (h : lookupEvent n = some f)
    (s : Datastore) (e : Event) :
    (f s e).start_time = s.start_time ∧ (f s e).end_time = s.end_time := by
  obtain ⟨k, hmem⟩ := lookup_mem_pair h
  exact table_window (k, f) hmem s e

/-- Concatenating the chunks from position `p` recovers `n * size` elements. -/
theorem chunker_join_aux (size : Nat) :
    ∀ (n p : Nat) (seq : List α),
      ((List.range' p n size).map (fun pos => (seq.drop pos).take size)).flatten
        = (seq.drop p).take (n * size) := by
  intro n
  induction n with
  | zero => intro p seq; simp
  | succ n ih =>
    intro p seq
    rw [List.range'_succ, List.map_cons, List.flatten_cons, ih (p + size) seq,
      Nat.succ_mul, Nat.add_comm (n * size) size, List.take_add, List.drop_drop]

/-! ### Claim C1 -/

/-- C1, counterexample: with a prefilter-passing malformed record followed by
a perfectly good record, ingestion does not skip the bad record and continue
— the whole run aborts with the uncaught exception, and no store at all is
produced, even though the remaining record alone would have ingested fine. -/
theorem c1_skip_and_continue_refuted :
    parse_evtx [c1BadRecord, c1GoodRecord] = .error .xmlSyntaxError ∧
      (parse_evtx [c1GoodRecord]).isOk = true :=
  ⟨rfl, rfl⟩

/-- C1, amended: a record that the prefilter rejects is skipped, but a
prefilter-passing record that fails normalisation (ill-formed XML, missing
`System/EventID` or `System/TimeCreated`, non-numeric id, or a timestamp
matching neither format) raises an uncaught exception that aborts the whole
run, regardless of the remaining records. -/
theorem c1_record_failure_aborts (store : Datastore) (r : RawRecord)
    (rest : List RawRecord) (err : Err)
    (hpre : prefilterMatches r.data = true)
    (hget : get_event_from_xml r = .error err) :
    parse_evtx_from store (r :: rest) = .error err := by
  simp [parse_evtx_from, hpre, hget]

/-- C1, witness for the amended theorem at a concrete malformed record. -/
theorem c1_record_failure_aborts_witness :
    parse_evtx_from emptyStore [c1BadRecord, c1GoodRecord] = .error .xmlSyntaxError :=
  c1_record_failure_aborts emptyStore c1BadRecord [c1GoodRecord] .xmlSyntaxError
    (by decide) rfl

/-! ### Claim C3 -/

/-- C3, counterexample: the `T`-separated example string does not parse via
the fallback format — preprocessing replaces the `T` by a space, so the
space-separated (first) format already accepts it, and the fallback format
cannot even match the preprocessed string. -/
theorem c3_fallback_refuted :
    strptimeSpace (tzless "2021-12-09T10:00:00.123456") = some ⟨2021, 12, 9, 10, 0, 0, 0⟩ ∧
      strptimeT (tzless "2021-12-09T10:00:00.123456") = none ∧
      convert_logtime "2021-12-09T10:00:00.123456" 1 = some dtDec9 := by
  refine ⟨by decide, by decide, by decide⟩

/-- C3, amended: `convert_logtime` attempts the space-separated format first
and falls back to the `T`-separated format on failure; both example strings
parse via the space-separated format (preprocessing turns the `T` into a
space), and both yield the instant 2021-12-09 11:00:00 after the default
+1-hour offset. -/
theorem c3_convert_logtime_formats :
    convert_logtime "2021-12-09 10:00:00.123456" 1 = some dtDec9 ∧
      convert_logtime "2021-12-09T10:00:00.123456" 1 = some dtDec9 ∧
      strptimeSpace (tzless "2021-12-09 10:00:00.123456") = some ⟨2021, 12, 9, 10, 0, 0, 0⟩ ∧
      strptimeSpace (tzless "2021-12-09T10:00:00.123456") = some ⟨2021, 12, 9, 10, 0, 0, 0⟩ ∧
      (∀ (s : String) (tz : Int), strptimeSpace (tzless s) = none →
        convert_logtime s tz = (strptimeT (tzless s)).bind (fun d => addHoursChecked d tz)) := by
  refine ⟨by decide, by decide, by decide, by decide, ?_⟩
  intro s tz h
  simp [convert_logtime, h]

/-- C3, witness for the fallback clause of the amended theorem. -/
theorem c3_convert_logtime_formats_witness :
    convert_logtime "garbage" 1 =
      (strptimeT (tzless "garbage")).bind (fun d => addHoursChecked d 1) :=
  c3_convert_logtime_formats.2.2.2.2 "garbage" 1 (by decide)

/-! ### Claim C4 -/

/-- C4: the prefilter has no false negatives — any record text containing
the literal substring `<EventID>{id}<` for a supported id is accepted by the
precompiled alternation pattern. -/
theorem c4_prefilter_no_false_negatives (data : String) (i : Int) (l r : List Char)
    (hmem : i ∈ supported_event_ids)
    (hsub : data.toList = l ++ ("<EventID>" ++ toString i ++ "<").toList ++ r) :
    prefilterMatches data = true := by
  have hpat : ("<EventID>" ++ toString i ++ "<").toList ∈ prefilterAlternatives := by
    rw [supported_event_ids] at hmem
    obtain ⟨kv, hkv, hi⟩ := List.mem_map.mp hmem
    rw [prefilterAlternatives]
    subst hi
    exact List.mem_map_of_mem _ hkv
  rw [prefilterMatches, hsub, List.append_assoc]
  exact searchFrom_of_matchesAt l _ (matchesAt_of_mem hpat r)

/-- C4, witness at a concrete supported id inside surrounding text. -/
theorem c4_prefilter_no_false_negatives_witness :
    prefilterMatches "junk<EventID>4768<junk" = true :=
  c4_prefilter_no_false_negatives "junk<EventID>4768<junk" 4768
    "junk".toList "junk".toList (by decide) (by decide)

/-! ### Claim C5 -/

/-- C5: a record that passes the prefilter but whose parsed numeric id is
not a dispatch key raises no error and dispatches no extractor: the step
only records the timestamp in the global window, and ingestion continues
with the remaining records. -/
theorem c5_unmatched_id_noop (store : Datastore) (r : RawRecord)
    (rest : List RawRecord) (event : Event)
    (hpre : prefilterMatches r.data = true)
    (hget : get_event_from_xml r = .ok event)
    (hlook : lookupEvent event.event_id = none) :
    parse_evtx_from store (r :: rest) =
      parse_evtx_from (store.add_timestamp event.timestamp) rest := by
  simp [parse_evtx_from, hpre, hget, hlook]

/-- C5, witness at a concrete prefilter false positive with id 12345. -/
theorem c5_unmatched_id_noop_witness :
    parse_evtx_from emptyStore [c5Record] =
      parse_evtx_from (emptyStore.add_timestamp c5Event.timestamp) [] :=
  c5_unmatched_id_noop emptyStore c5Record [] c5Event (by decide) rfl rfl

/-! ### Claim C6 -/

/-- C6: the dispatch table maps exactly the ids 3, 4624, 4625, 4648, 4672,
4768, 4769, 4771, 4776, 4728, 4732 and 4756 to extractors, and the three
group-membership ids 4728, 4732 and 4756 all map to the one shared handler. -/
theorem c6_dispatch_table_exact :
    (supported_events.map Prod.fst).Perm
        [3, 4624, 4625, 4648, 4672, 4768, 4769, 4771, 4776, 4728, 4732, 4756] ∧
      lookupEvent 4728 = some parse_add_group ∧
      lookupEvent 4732 = some parse_add_group ∧
      lookupEvent 4756 = some parse_add_group :=
  ⟨by decide, rfl, rfl, rfl⟩

/-! ### Claim C7 -/

/-- C7: for every sequence and every chunk size greater than zero, `chunker`
partitions the sequence into consecutive batches of at most `size` rows in
the original order, and the concatenation of all batches is the original
sequence. -/
theorem c7_chunker_partition (seq : List α) (size : Nat) (hs : 0 < size) :
    (chunker seq size).flatten = seq ∧ ∀ c ∈ chunker seq size, c.length ≤ size := by
  constructor
  · rw [chunker, chunker_join_aux size _ 0 seq, List.drop_zero]
    have key : seq.length ≤ ((seq.length + size - 1) / size) * size := by
      have hd := Nat.div_add_mod (seq.length + size - 1) size
      have hrlt : (seq.length + size - 1) % size < size := Nat.mod_lt _ hs
      rw [Nat.mul_comm]
      generalize hM : size * ((seq.length + size - 1) / size) = M at hd ⊢
      generalize hR : (seq.length + size - 1) % size = R at hd hrlt
      omega
    exact List.take_of_length_le key
  · intro c hc
    rw [chunker] at hc
    obtain ⟨pos, hpos, rfl⟩ := List.mem_map.mp hc
    exact List.length_take_le size _

/-- C7, witness at a concrete list and the chunk size 2. -/
theorem c7_chunker_partition_witness :
    (chunker [10, 20, 30] 2).flatten = [10, 20, 30] ∧
      ∀ c ∈ chunker [10, 20, 30] 2, c.length ≤ 2 :=
  c7_chunker_partition [10, 20, 30] 2 (by decide)

/-! ### Claim C2 -/

/-- C2, counterexample: a well-formed pair of one supported and one
unsupported record does not, in general, feed both timestamps into the
global window — the unsupported record (here id 9999, Dec 10) matches no
prefilter alternative, is skipped before `add_timestamp`, and the window
stays at the supported record's instant (Dec 9) on both ends. -/
theorem c2_window_union_refuted :
    get_event_from_xml c2UnsupRecord = .ok c2UnsupEvent ∧
      (parse_evtx [c2SupRecord, c2UnsupRecord]).map
          (fun s => (s.start_time, s.end_time)) = .ok (some dtDec9, some dtDec9) ∧
      c2UnsupEvent.timestamp ≠ dtDec9 :=
  ⟨rfl, rfl, by decide⟩

/-- C2, amended: for every pair of well-formed records that both pass the
prefilter, one with a supported id and one with an unsupported id, ingesting
both updates the global (min, max) window using both timestamps, while only
the supported record contributes to the entity and relationship tables. -/
theorem c2_window_prefilter_passing (r1 r2 : RawRecord) (e1 e2 : Event)
    (f : Extractor)
    (hpre1 : prefilterMatches r1.data = true)
    (hpre2 : prefilterMatches r2.data = true)
    (hget1 : get_event_from_xml r1 = .ok e1)
    (hget2 : get_event_from_xml r2 = .ok e2)
    (hsup : lookupEvent e1.event_id = some f)
    (hunsup : lookupEvent e2.event_id = none) :
    ∃ s, parse_evtx [r1, r2] = .ok s ∧
      s.start_time = some (dtMin e1.timestamp e2.timestamp) ∧
      s.end_time = some (dtMax e1.timestamp e2.timestamp) ∧
      s.users = (f (emptyStore.add_timestamp e1.timestamp) e1).users ∧
      s.machines = (f (emptyStore.add_timestamp e1.timestamp) e1).machines ∧
      s.groups = (f (emptyStore.add_timestamp e1.timestamp) e1).groups ∧
      s.relationships = (f (emptyStore.add_timestamp e1.timestamp) e1).relationships := by
  have hw := extractor_window hsup (emptyStore.add_timestamp e1.timestamp) e1
  refine ⟨(f (emptyStore.add_timestamp e1.timestamp) e1).add_timestamp e2.timestamp,
    ?_, ?_, ?_, ?_, ?_, ?_, ?_⟩
  · simp [parse_evtx, parse_evtx_from, hpre1, hget1, hsup, hpre2, hget2, hunsup]
  · have hw1 : (f (emptyStore.add_timestamp e1.timestamp) e1).start_time =
        some e1.timestamp := by rw [hw.1]; rfl
    generalize hX : f (emptyStore.add_timestamp e1.timestamp) e1 = X at hw1 ⊢
    simp only [Datastore.add_timestamp]
    rw [hw1]
  · have hw2 : (f (emptyStore.add_timestamp e1.timestamp) e1).end_time =
        some e1.timestamp := by rw [hw.2]; rfl
    generalize hX : f (emptyStore.add_timestamp e1.timestamp) e1 = X at hw2 ⊢
    simp only [Datastore.add_timestamp]
    rw [hw2]
  · simp [Datastore.add_timestamp]
  · simp [Datastore.add_timestamp]
  · simp [Datastore.add_timestamp]
  · simp [Datastore.add_timestamp]

/-- C2, witness for the amended theorem: the unsupported record passes the
prefilter through a false positive in its payload. -/
theorem c2_window_prefilter_passing_witness :
    ∃ s, parse_evtx [c2SupRecord, c2FalsePositiveRecord] = .ok s ∧
      s.start_time = some (dtMin c2SupEvent.timestamp c2UnsupEvent.timestamp) ∧
      s.end_time = some (dtMax c2SupEvent.timestamp c2UnsupEvent.timestamp) ∧
      s.users = (parse_logon_successfull
        (emptyStore.add_timestamp c2SupEvent.timestamp) c2SupEvent).users ∧
      s.machines = (parse_logon_successfull
        (emptyStore.add_timestamp c2SupEvent.timestamp) c2SupEvent).machines ∧
      s.groups = (parse_logon_successfull
        (emptyStore.add_timestamp c2SupEvent.timestamp) c2SupEvent).groups ∧
      s.relationships = (parse_logon_successfull
        (emptyStore.add_timestamp c2SupEvent.timestamp) c2SupEvent).relationships :=
  c2_window_prefilter_passing c2SupRecord c2FalsePositiveRecord c2SupEvent c2UnsupEvent
    parse_logon_successfull (by decide) (by decide) rfl rfl rfl rfl

/-! ### Claim C8 -/

/-- C8: the display tooltip of every exported relationship is the `key:
value` rendering of its descriptive attributes — all exported fields except
`source`, `target`, `timestamps`, `count`, `source_type` and `target_type` —
joined by the `<br>` token, with `<br>Count: N` appended for the stored
count; when the attribute keys avoid the excluded names, the descriptive
pairs are exactly `event_type` followed by the attributes. -/
theorem c8_tooltip_shape (e : Rel)
    (hattrs : ∀ k ∈ e.attrs.map Prod.fst, ¬ k ∈ tipExcludeKeys) :
    displayTip (exportRel e) =
      String.intercalate "<br>"
          ((specDescriptivePairs e).map (fun kv => kv.1 ++ ": " ++ pyFormat kv.2)) ++
        "<br>Count: " ++ toString e.count ∧
      specDescriptivePairs e =
        ("event_type", PyVal.s e.event_type) ::
          e.attrs.map (fun kv => (kv.1, PyVal.s kv.2)) := by
  have hkeep : ∀ x ∈ e.attrs.map (fun kv => (kv.1, PyVal.s kv.2)),
      (decide (¬ (x.1 = "source" ∨ x.1 = "target" ∨ x.1 = "timestamps" ∨
        x.1 = "count" ∨ x.1 = "source_type" ∨ x.1 = "target_type"))) = true := by
    intro x hx
    obtain ⟨kv, hkv, rfl⟩ := List.mem_map.mp hx
    have h := hattrs kv.1 (List.mem_map_of_mem _ hkv)
    simp only [tipExcludeKeys, List.mem_cons, List.not_mem_nil, or_false, not_or] at h
    simp [h.1, h.2.1, h.2.2.1, h.2.2.2.1, h.2.2.2.2.1, h.2.2.2.2.2]
  have hfilter : specDescriptivePairs e =
      ("event_type", PyVal.s e.event_type) ::
        e.attrs.map (fun kv => (kv.1, PyVal.s kv.2)) := by
    show ("event_type", PyVal.s e.event_type) ::
        (e.attrs.map (fun kv => (kv.1, PyVal.s kv.2))).filter _ = _
    rw [List.filter_eq_self.mpr hkeep]
  refine ⟨?_, hfilter⟩
  have hcongr : (relDict e).filter (fun kv => !(tipExcludeKeys.contains kv.1)) =
      specDescriptivePairs e := by
    rw [specDescriptivePairs]
    refine List.filter_congr ?_
    intro kv _
    simp [tipExcludeKeys, List.contains_cons, decide_not]
  rw [displayTip, exportRel]
  rw [show (ExportedRel.mk e.source e.target e.event_type e.count
      (e.timestamps.map pyRoundTimestamp) (tipOf e) e.attrs).tip = tipOf e from rfl,
    show (ExportedRel.mk e.source e.target e.event_type e.count
      (e.timestamps.map pyRoundTimestamp) (tipOf e) e.attrs).count = e.count from rfl,
    tipOf, hcongr]

/-- C8, witness at a concrete relationship with two descriptive attributes. -/
theorem c8_tooltip_shape_witness :
    displayTip (exportRel c8Rel) =
      String.intercalate "<br>"
          ((specDescriptivePairs c8Rel).map (fun kv => kv.1 ++ ": " ++ pyFormat kv.2)) ++
        "<br>Count: " ++ toString c8Rel.count ∧
      specDescriptivePairs c8Rel =
        ("event_type", PyVal.s c8Rel.event_type) ::
          c8Rel.attrs.map (fun kv => (kv.1, PyVal.s kv.2)) :=
  c8_tooltip_shape c8Rel (by decide)

/-! ### Claim C9 -/

/-- C9: finalizing for handoff exports every machine's accumulated IP set as
a list, and every relationship's timestamps as epoch-second integers in the
accumulated encounter order, each instant rounded to the nearest whole
second (the rounded value is within half a second of the exact instant). -/
theorem c9_export_shapes (m : Entity) (e : Rel) (d : PyDateTime)
    (hmu : d.microsecond < 1000000) :
    (exportMachine m).ips = m.ips ∧
      (exportRel e).timestamps = e.timestamps.map pyRoundTimestamp ∧
      1000000 * pyRoundTimestamp d ≤ 1000000 * toEpochSeconds d + d.microsecond + 500000 ∧
      1000000 * toEpochSeconds d + (d.microsecond : Int) ≤
        1000000 * pyRoundTimestamp d + 500000 := by
  refine ⟨rfl, rfl, ?_, ?_⟩ <;>
    · rw [pyRoundTimestamp]
      split
      · omega
      · split
        · omega
        · split <;> omega

/-- C9, witness at a concrete machine, relationship and half-second instant. -/
theorem c9_export_shapes_witness :
    (exportMachine c9Machine).ips = c9Machine.ips ∧
      (exportRel c9Rel).timestamps = c9Rel.timestamps.map pyRoundTimestamp ∧
      1000000 * pyRoundTimestamp c9Half ≤
        1000000 * toEpochSeconds c9Half + c9Half.microsecond + 500000 ∧
      1000000 * toEpochSeconds c9Half + (c9Half.microsecond : Int) ≤
        1000000 * pyRoundTimestamp c9Half + 500000 :=
  c9_export_shapes c9Machine c9Rel c9Half (by decide)

/-! ### Claim C10 -/

/-- C10: `convert_logtime` discards everything after the first dot, replaces
every remaining character other than digits, hyphen, colon and whitespace by
a space before format matching, and therefore only ever returns instants of
whole-second precision. -/
theorem c10_convert_logtime_preprocessing (s : String) (tz : Int) :
    (∀ c ∈ tzless s, c.isDigit = true ∨ c = '-' ∨ c = ':' ∨ pyIsSpace c = true) ∧
      convert_logtime s tz =
        convert_logtime (String.mk (s.toList.takeWhile (fun c => c != '.'))) tz ∧
      (∀ d, convert_logtime s tz = some d → d.microsecond = 0) := by
  refine ⟨?_, ?_, fun d h => convert_logtime_micro h⟩
  · intro c hc
    have h1 : c ∈ pySubDate (pyHeadDot s.toList) := mem_of_mem_pyStrip hc
    obtain ⟨a, -, ha⟩ := List.mem_map.mp h1
    by_cases hd : pyIsDateChar a = true
    · rw [hd] at ha
      simp only [if_pos] at ha
      subst ha
      simpa [pyIsDateChar, Bool.or_eq_true, or_assoc] using hd
    · rw [Bool.not_eq_true] at hd
      rw [hd] at ha
      simp only [Bool.false_eq_true, if_false] at ha
      subst ha
      right; right; right; rfl
  · rw [convert_logtime, convert_logtime, tzless_headDot]

/-- C10, witness: a concrete fractional timestamp parses, its result is the
same as for the dot-truncated string, and has microsecond 0. -/
theorem c10_convert_logtime_preprocessing_witness :
    convert_logtime "2021-12-09 10:00:00.987654" 1 =
      convert_logtime
        (String.mk ("2021-12-09 10:00:00.987654".toList.takeWhile (fun c => c != '.'))) 1 ∧
      (dtDec9.microsecond = 0) :=
  ⟨(c10_convert_logtime_preprocessing "2021-12-09 10:00:00.987654" 1).2.1,
   (c10_convert_logtime_preprocessing "2021-12-09 10:00:00.987654" 1).2.2 dtDec9 (by decide)⟩

end Epagneul
